import Mathlib

/-!
Shallow embedding of `src/deal_evaluation.py` (deal-evaluation-tool).

Python floats are modelled as `ℚ`; Python `dict` objects (whose iteration
order is insertion order, with assignment to an existing key updating in
place) are modelled as association lists `List (String × α)` with the
update operation `dset`.  Fallible Python code (KeyError / ValueError /
IndexError) is modelled with `Except String`.  Python's `float()` parser is
modelled on the finite decimal and scientific literals it accepts; the
`inf`/`nan` words and underscore digit separators are outside the model.
-/

/-- Value of a digit string as a natural number (empty list gives 0). -/
def natDigits (cs : List Char) : ℕ :=
  cs.foldl (fun a c => a * 10 + (c.toNat - '0'.toNat)) 0

/-- Model of the exponent suffix accepted by Python `float()`: either no
remaining input (exponent 0) or `[eE][+-]?digits` consuming the whole
remaining input. -/
def expParse? : List Char → Option ℤ
  | [] => some 0
  | e :: r =>
    if e = 'e' ∨ e = 'E' then
      let p : ℤ × List Char :=
        match r with
        | '+' :: t => (1, t)
        | '-' :: t => (-1, t)
        | t => (1, t)
      let ds := p.2.takeWhile Char.isDigit
      let rest := p.2.dropWhile Char.isDigit
      if ds = [] ∨ rest ≠ [] then none
      else some (p.1 * (natDigits ds : ℤ))
    else none

/-- Syntactic part of the Python `float()` model: optional sign, then
either `digits[.digits]` or `.digits`, then an optional exponent; returns
(sign, integer digits, fraction digits, exponent). -/
def pyParse? (cs : List Char) : Option (ℤ × List Char × List Char × ℤ) :=
  let p : ℤ × List Char :=
    match cs with
    | '+' :: t => (1, t)
    | '-' :: t => (-1, t)
    | t => (1, t)
  let ip := p.2.takeWhile Char.isDigit
  let r1 := p.2.dropWhile Char.isDigit
  match r1 with
  | '.' :: r2 =>
    let fp := r2.takeWhile Char.isDigit
    let r3 := r2.dropWhile Char.isDigit
    if ip = [] ∧ fp = [] then none
    else (expParse? r3).map (fun ex => (p.1, ip, fp, ex))
  | _ => if ip = [] then none else (expParse? r1).map (fun ex => (p.1, ip, [], ex))

/-- Numeric value of a parsed float literal,
`sign * (ipdigits.fpdigits) * 10 ^ exponent`, built with `Rat.divInt`. -/
def litVal : ℤ × List Char × List Char × ℤ → ℚ
  | (s, ip, fp, ex) =>
    Rat.divInt (s * ((natDigits ip : ℤ) * 10 ^ fp.length + (natDigits fp : ℤ)) * 10 ^ ex.toNat)
      ((10 : ℤ) ^ fp.length * 10 ^ (-ex).toNat)

/-- Model of Python `float()` on a character list; a failing parse is
`none` (`ValueError`).  The `inf`/`nan` words and underscore separators
accepted by CPython are outside the model. -/
def pyFloat? (cs : List Char) : Option ℚ :=
  (pyParse? cs).map litVal

/-- Model of Python `str.strip()`: drop whitespace from both ends. -/
def stripL (cs : List Char) : List Char :=
  ((cs.dropWhile Char.isWhitespace).reverse.dropWhile Char.isWhitespace).reverse

/-- Model of Python `str.lower()` (ASCII letters). -/
def lowerL (cs : List Char) : List Char :=
  cs.map Char.toLower

/-- Model of `.replace(',', '').replace(' ', '')`: remove every comma and
space character. -/
def cleanNum (cs : List Char) : List Char :=
  cs.filter (fun c => !(c = ',' || c = ' '))

/-- Model of `.replace(',', '.')` on the captured group. -/
def commaToPeriod (cs : List Char) : List Char :=
  cs.map (fun c => if c = ',' then '.' else c)

/-- Match a literal at the start of the input, returning the remainder. -/
def dropLit : List Char → List Char → Option (List Char)
  | [], cs => some cs
  | _ :: _, [] => none
  | l :: ls, c :: cs => if c = l then dropLit ls cs else none

/-- Backtracking point of the regex tail `%` after the number token: the
digits consumed so far are held reversed in `dsRev`; candidates are tried
from the longest down to length `minLen`, succeeding when the next input
character is `%`. -/
def tryPctAux : List Char → List Char → ℕ → Option (List Char)
  | dsRev, rest, minLen =>
    if rest.head? = some '%' then some dsRev.reverse
    else
      match dsRev with
      | [] => none
      | c :: ds =>
        if ds.length + 1 ≤ minLen then none
        else tryPctAux ds (c :: rest) minLen

/-- Attempt the regex `lit[^0-9]*(\d+[,.]?\d*)` (with a trailing `%` after
the group when `pct` is true) anchored at the start of `cs`, returning the
captured group.  `[^0-9]*` can only stop at the first digit, `\d+` greedily
takes that digit run, and the optional separator plus `\d*` extend it;
with `pct` set, backtracking shortens the token until a `%` follows. -/
def tryAt (lit : List Char) (pct : Bool) (cs : List Char) : Option (List Char) :=
  match dropLit lit cs with
  | none => none
  | some r1 =>
    let r2 := r1.dropWhile (fun c => !c.isDigit)
    let run1 := r2.takeWhile Char.isDigit
    let a1 := r2.dropWhile Char.isDigit
    if run1 = [] then none
    else if pct then
      match a1 with
      | s :: r3 =>
        if s = ',' ∨ s = '.' then
          let run2 := r3.takeWhile Char.isDigit
          let a2 := r3.dropWhile Char.isDigit
          match tryPctAux (run2.reverse ++ s :: run1.reverse) a2 (run1.length + 1) with
          | some cap => some cap
          | none => tryPctAux run1.reverse a1 1
        else tryPctAux run1.reverse a1 1
      | [] => tryPctAux run1.reverse [] 1
    else
      match a1 with
      | s :: r3 =>
        if s = ',' ∨ s = '.' then some (run1 ++ s :: r3.takeWhile Char.isDigit)
        else some run1
      | [] => some run1

/-- Model of `re.search`: try the pattern at each start position from left
to right, returning the first captured group. -/
def searchFrom (lit : List Char) (pct : Bool) : List Char → Option (List Char)
  | [] => tryAt lit pct []
  | c :: cs =>
    match tryAt lit pct (c :: cs) with
    | some cap => some cap
    | none => searchFrom lit pct cs

/-- `re.search` over a string. -/
def searchPat (lit : List Char) (pct : Bool) (text : String) : Option (List Char) :=
  searchFrom lit pct text.data

/-- The literal part of the pattern `EBIT[^\d]*(\d+[,.]?\d*)`. -/
def ebitPatL : List Char := "EBIT".data

/-- The literal part of the pattern `growth[^\d]*(\d+[,.]?\d*)%`. -/
def growthPatL : List Char := "growth".data

/-- The literal part of the pattern `EBIT margin[^\d]*(\d+[,.]?\d*)%`. -/
def marginPatL : List Char := "EBIT margin".data

/-- Dictionary lookup (Python `d[k]` success case). -/
def dget? {α : Type} : List (String × α) → String → Option α
  | [], _ => none
  | (k', v) :: t, k => if k' = k then some v else dget? t k

/-- Dictionary assignment `d[k] = v`: update in place if the key is
present, else append (Python dicts keep insertion order). -/
def dset {α : Type} : List (String × α) → String → α → List (String × α)
  | [], k, v => [(k, v)]
  | (k', v') :: t, k, v => if k' = k then (k, v) :: t else (k', v') :: dset t k v

/-- Python `base.update(upd)`: assign every entry of `upd` in order. -/
def dictUpdate (base upd : List (String × ℚ)) : List (String × ℚ) :=
  upd.foldl (fun acc p => dset acc p.1 p.2) base

/-- The initial `financial_data` dict of `extract_financials_from_table`,
with its zero defaults. -/
def fd0 : List (String × ℚ) :=
  [("Revenue 2022", 0), ("Revenue 2023", 0), ("Revenue 2024", 0),
   ("EBIT 2022", 0), ("EBIT 2023", 0), ("EBIT 2024", 0)]

/-- The comprehension `[str(cell).strip().lower() for cell in row if cell]`:
cells that are `None` or empty are dropped (shifting later cells left), the
rest are stripped and lowercased. -/
def rowText (row : List (Option String)) : List (List Char) :=
  row.filterMap (fun c =>
    match c with
    | none => none
    | some s => if s = "" then none else some (lowerL (stripL s.data)))

/-- Bool-valued model of Python's `needle in hay` substring test. -/
def containsSubstr (hay needle : List Char) : Bool :=
  match hay with
  | [] => needle.isEmpty
  | c :: t => needle.isPrefixOf (c :: t) || containsSubstr t needle

/-- The label "revenue" matched against the first cell. -/
def revL : List Char := "revenue".data

/-- The label "ebit" matched against the first cell. -/
def ebitL : List Char := "ebit".data

/-- The dict key `f"{lbl} {year}"`. -/
def yearKey (lbl year : String) : String := lbl ++ " " ++ year

/-- One iteration of `for i, year in enumerate(["2022","2023","2024"])`:
when cell `i+1` of `row_text` exists and parses as a float (after removing
commas and spaces) assign it to the year key, otherwise leave the dict
unchanged (the `except ValueError: pass`). -/
def setYear (lbl year : String) (fd : List (String × ℚ)) (rt : List (List Char)) (i : ℕ) :
    List (String × ℚ) :=
  if i + 1 < rt.length then
    match rt.get? (i + 1) with
    | some c =>
      match pyFloat? (cleanNum c) with
      | some v => dset fd (yearKey lbl year) v
      | none => fd
    | none => fd
  else fd

/-- The whole year loop for one label. -/
def yearLoop (lbl : String) (fd : List (String × ℚ)) (rt : List (List Char)) :
    List (String × ℚ) :=
  setYear lbl "2024" (setYear lbl "2023" (setYear lbl "2022" fd rt 0) rt 1) rt 2

/-- The `if "revenue" in row_text[0]:` branch of the row body. -/
def revApply (fd : List (String × ℚ)) (first : List Char) (rt : List (List Char)) :
    List (String × ℚ) :=
  if containsSubstr first revL then yearLoop "Revenue" fd rt else fd

/-- The whole row body after `row_text` is known to be `first :: rest`:
the independent "revenue" and "ebit" label checks in order. -/
def rowApply (fd : List (String × ℚ)) (first : List Char) (rt : List (List Char)) :
    List (String × ℚ) :=
  if containsSubstr first ebitL then yearLoop "EBIT" (revApply fd first rt) rt
  else revApply fd first rt

/-- Processing of one table row: empty rows are skipped by `if row:`; the
filtered `row_text` is then indexed at 0 unconditionally, which raises
`IndexError` when every cell of a non-empty row is falsy; a first cell
containing "revenue" and/or "ebit" triggers the corresponding year loop. -/
def procRow (fd : List (String × ℚ)) (row : List (Option String)) :
    Except String (List (String × ℚ)) :=
  if row = [] then Except.ok fd
  else
    match rowText row with
    | [] => Except.error "IndexError"
    | first :: rest => Except.ok (rowApply fd first (first :: rest))

/-- The `for row in table:` loop. -/
def procRows (fd : List (String × ℚ)) :
    List (List (Option String)) → Except String (List (String × ℚ))
  | [] => Except.ok fd
  | row :: rest =>
    match procRow fd row with
    | Except.error e => Except.error e
    | Except.ok fd' => procRows fd' rest

/-- The `for table in tables:` loop. -/
def procTables (fd : List (String × ℚ)) :
    List (List (List (Option String))) → Except String (List (String × ℚ))
  | [] => Except.ok fd
  | table :: rest =>
    match procRows fd table with
    | Except.error e => Except.error e
    | Except.ok fd' => procTables fd' rest

/-- `extract_financials_from_table(tables)` of `src/deal_evaluation.py`. -/
def extract_financials_from_table (tables : List (List (List (Option String)))) :
    Except String (List (String × ℚ)) :=
  procTables fd0 tables

/-- Conversion of one regex result in the dict comprehension:
`float(val.group(1).replace(',', '.')) if val else 0.0`. -/
def convMetric (o : Option (List Char)) : Except String ℚ :=
  match o with
  | none => Except.ok 0
  | some cap =>
    match pyFloat? (commaToPeriod cap) with
    | some v => Except.ok v
    | none => Except.error "ValueError"

/-- `extract_key_metrics(text, tables)` of `src/deal_evaluation.py`:
the three text-pattern metrics are converted in dict order, then the dict
is updated with the table financials. -/
def extract_key_metrics (text : String) (tables : List (List (List (Option String)))) :
    Except String (List (String × ℚ)) :=
  match convMetric (searchPat ebitPatL false text) with
  | Except.error e => Except.error e
  | Except.ok vE =>
    match convMetric (searchPat growthPatL true text) with
    | Except.error e => Except.error e
    | Except.ok vG =>
      match convMetric (searchPat marginPatL true text) with
      | Except.error e => Except.error e
      | Except.ok vM =>
        match extract_financials_from_table tables with
        | Except.error e => Except.error e
        | Except.ok fin =>
          Except.ok (dictUpdate [("EBIT", vE), ("Revenue Growth", vG), ("EBIT Margins", vM)] fin)

/-- The global `SCORING_WEIGHTS` dict of `src/deal_evaluation.py`. -/
def SCORING_WEIGHTS : List (String × ℚ) :=
  [("Size (EBIT)", 20), ("Market Growth", 20), ("Mission-Critical Offering", 20),
   ("Recurring Revenue", 20), ("Stable Margins", 20)]

/-- The `Size (EBIT)` branching ladder of `score_deal` (the source literal
`1.5` is written `Rat.divInt 3 2`). -/
def sizeScore (v : ℚ) : ℤ :=
  if 3 < v then 5 else if 2 < v then 4 else if Rat.divInt 3 2 < v then 3
  else if 1 < v then 2 else 1

/-- The `Market Growth` branching ladder of `score_deal`. -/
def growthScore (v : ℚ) : ℤ :=
  if 8 < v then 5 else if 6 < v then 4 else if 5 < v then 3 else if 3 < v then 2 else 1

/-- The `Stable Margins` branching ladder of `score_deal`. -/
def marginScore (v : ℚ) : ℤ :=
  if 20 < v then 5 else if 15 < v then 4 else if 10 < v then 3 else if 5 < v then 2 else 1

/-- `score_deal(metrics)` of `src/deal_evaluation.py`: each ladder reads its
metric with `metrics[...]` (a missing key is a `KeyError`), and the scores
dict is built in the order Size, Market Growth, Stable Margins. -/
def score_deal (metrics : List (String × ℚ)) : Except String (List (String × ℤ)) :=
  match dget? metrics "EBIT" with
  | none => Except.error "KeyError"
  | some e =>
    match dget? metrics "Revenue Growth" with
    | none => Except.error "KeyError"
    | some g =>
      match dget? metrics "EBIT Margins" with
      | none => Except.error "KeyError"
      | some m =>
        Except.ok [("Size (EBIT)", sizeScore e), ("Market Growth", growthScore g),
          ("Stable Margins", marginScore m)]

/-- The generator-sum of `calculate_final_score`: for each criterion in the
scores dict, look its weight up in `SCORING_WEIGHTS` (a missing criterion
is a `KeyError`) and accumulate `score * (weight / 100)`. -/
def sumTerms : List (String × ℤ) → Option ℚ
  | [] => some 0
  | (k, s) :: t =>
    match dget? SCORING_WEIGHTS k, sumTerms t with
    | some w, some r => some ((s : ℚ) * (w / 100) + r)
    | _, _ => none

/-- Python `round(x, 2)` on exact rationals: round half to even at the
second decimal place. -/
def rhe (x : ℚ) : ℤ :=
  if x - ⌊x⌋ < Rat.divInt 1 2 then ⌊x⌋
  else if Rat.divInt 1 2 < x - ⌊x⌋ then ⌊x⌋ + 1
  else if ⌊x⌋ % 2 = 0 then ⌊x⌋ else ⌊x⌋ + 1

/-- Round to 2 decimal places (model of `round(weighted_score, 2)`). -/
def round2 (x : ℚ) : ℚ :=
  Rat.divInt (rhe (x * 100)) 100

/-- `calculate_final_score(scores)` of `src/deal_evaluation.py`. -/
def calculate_final_score (scores : List (String × ℤ)) : Except String ℚ :=
  match sumTerms scores with
  | none => Except.error "KeyError"
  | some w => Except.ok (round2 w)

/-- The composed pipeline on one already-normalized document:
`extract_key_metrics`, then `score_deal`, then `calculate_final_score`. -/
def pipelineScore (text : String) (tables : List (List (List (Option String)))) :
    Except String ℚ :=
  match extract_key_metrics text tables with
  | Except.error e => Except.error e
  | Except.ok m =>
    match score_deal m with
    | Except.error e => Except.error e
    | Except.ok s => calculate_final_score s

/-- Modelled from the spec: the Aggregator & Classifier's RecommendationTier
map is absent from `src/deal_evaluation.py` (`main` only renders the final
score), so the tier function is taken from the spec's words:
`final_score ≥ 4.5 → Excellent; ≥ 4.0 → Attractive; ≥ 3.5 → Moderate;
else Weak`, lower bounds inclusive. -/
def classify_tier (s : ℚ) : String :=
  if 4.5 ≤ s then "Excellent"
  else if 4 ≤ s then "Attractive"
  else if 3.5 ≤ s then "Moderate"
  else "Weak"

/-- The `Stable Margins` threshold ladder exactly as the spec words it:
`v>20→5; v>15→4; v>10→3; v>5→2; else 1`, strict comparisons. -/
def stableLadder_spec (v : ℚ) : ℤ :=
  if v > 20 then 5 else if v > 15 then 4 else if v > 10 then 3 else if v > 5 then 2 else 1

/-- The `Size (EBIT)` threshold ladder exactly as the spec words it:
`v>3→5; v>2→4; v>1.5→3; v>1→2; else 1`, strict comparisons. -/
def sizeLadder_spec (v : ℚ) : ℤ :=
  if v > 3 then 5 else if v > 2 then 4 else if v > Rat.divInt 3 2 then 3
  else if v > 1 then 2 else 1

/-- The `Market Growth` threshold ladder exactly as the spec words it:
`v>8→5; v>6→4; v>5→3; v>3→2; else 1`, strict comparisons. -/
def growthLadder_spec (v : ℚ) : ℤ :=
  if v > 8 then 5 else if v > 6 then 4 else if v > 5 then 3 else if v > 3 then 2 else 1

/-- The spec's aggregation formula `Σ(score_i × weight_i/100)` over the
scored criteria, with weight function `w`. -/
def weightedSum_spec (scores : List (String × ℤ)) (w : String → ℚ) : ℚ :=
  (scores.map (fun p => (p.2 : ℚ) * (w p.1 / 100))).sum

deriving instance DecidableEq for Except

theorem dget?_dset_self {α : Type} (m : List (String × α)) (k : String) (v : α) :
    dget? (dset m k v) k = some v := by
  induction m with
  | nil => simp [dset, dget?]
  | cons p t ih =>
    obtain ⟨k', v'⟩ := p
    by_cases h : k' = k <;> simp [dset, dget?, h, ih]

theorem dget?_dset_ne {α : Type} (m : List (String × α)) {k k' : String} (v : α)
    (h : k' ≠ k) : dget? (dset m k' v) k = dget? m k := by
  induction m with
  | nil => simp [dset, dget?, h]
  | cons p t ih =>
    obtain ⟨k'', v''⟩ := p
    by_cases h2 : k'' = k' <;> simp [dset, dget?, h2, h, ih]

theorem keys_dset_mem {α : Type} (m : List (String × α)) (k : String) (v : α)
    (h : k ∈ m.map Prod.fst) : (dset m k v).map Prod.fst = m.map Prod.fst := by
  induction m with
  | nil => simp at h
  | cons p t ih =>
    obtain ⟨k', v'⟩ := p
    by_cases h2 : k' = k
    · simp [dset, h2]
    · simp [dset, h2]
      apply ih
      rcases List.mem_map.1 h with ⟨q, hq, hfst⟩
      rcases List.mem_cons.1 hq with rfl | hmem
      · exact absurd hfst h2
      · exact List.mem_map.2 ⟨q, hmem, hfst⟩

theorem keys_dset_not_mem {α : Type} (m : List (String × α)) (k : String) (v : α)
    (h : k ∉ m.map Prod.fst) : (dset m k v).map Prod.fst = m.map Prod.fst ++ [k] := by
  induction m with
  | nil => simp [dset]
  | cons p t ih =>
    obtain ⟨k', v'⟩ := p
    have h1 : k' ≠ k := fun he => h (by simp [he])
    have h2 : k ∉ t.map Prod.fst := fun hm => h (by simp [hm])
    simp [dset, h1, ih h2]

theorem dget?_foldl_dset_not_mem {α : Type} (upd : List (String × α)) (base : List (String × α))
    (k : String) (h : k ∉ upd.map Prod.fst) :
    dget? (upd.foldl (fun acc p => dset acc p.1 p.2) base) k = dget? base k := by
  induction upd generalizing base with
  | nil => simp
  | cons p t ih =>
    have h1 : p.1 ≠ k := fun he => h (by simp [← he])
    have h2 : k ∉ t.map Prod.fst := fun hm => h (by simp [List.mem_map] at hm ⊢; tauto)
    simp only [List.foldl_cons]
    rw [ih _ h2, dget?_dset_ne _ _ h1]

theorem sizeScore_bounds (v : ℚ) : 1 ≤ sizeScore v ∧ sizeScore v ≤ 5 := by
  unfold sizeScore
  split_ifs <;> decide

theorem growthScore_bounds (v : ℚ) : 1 ≤ growthScore v ∧ growthScore v ≤ 5 := by
  unfold growthScore
  split_ifs <;> decide

theorem marginScore_bounds (v : ℚ) : 1 ≤ marginScore v ∧ marginScore v ≤ 5 := by
  unfold marginScore
  split_ifs <;> decide

theorem score_deal_ok (m : List (String × ℚ)) (s : List (String × ℤ))
    (h : score_deal m = Except.ok s) :
    ∃ e g mg, dget? m "EBIT" = some e ∧ dget? m "Revenue Growth" = some g ∧
      dget? m "EBIT Margins" = some mg ∧
      s = [("Size (EBIT)", sizeScore e), ("Market Growth", growthScore g),
        ("Stable Margins", marginScore mg)] := by
  unfold score_deal at h
  rcases hE : dget? m "EBIT" with _ | e <;> rw [hE] at h
  · simp at h
  rcases hG : dget? m "Revenue Growth" with _ | g <;> rw [hG] at h
  · simp at h
  rcases hM : dget? m "EBIT Margins" with _ | mg <;> rw [hM] at h
  · simp at h
  simp only [Except.ok.injEq] at h
  exact ⟨e, g, mg, rfl, rfl, rfl, h.symm⟩

theorem sumTerms_std (a b c : ℤ) :
    sumTerms [("Size (EBIT)", a), ("Market Growth", b), ("Stable Margins", c)] =
      some (((a + b + c : ℤ) : ℚ) / 5) := by
  simp [sumTerms, dget?, SCORING_WEIGHTS]
  ring

theorem rhe_intCast (n : ℤ) : rhe (n : ℚ) = n := by
  unfold rhe
  rw [Int.floor_intCast, sub_self]
  rw [if_pos]
  rw [Rat.divInt_eq_div]
  norm_num

theorem round2_int_div5 (k : ℤ) : round2 ((k : ℚ) / 5) = (k : ℚ) / 5 := by
  unfold round2
  have h : (k : ℚ) / 5 * 100 = ((20 * k : ℤ) : ℚ) := by push_cast; ring
  rw [h, rhe_intCast, Rat.divInt_eq_div]
  push_cast
  ring

theorem sumTerms_eq_weightedSum (scores : List (String × ℤ)) (w : ℚ)
    (h : sumTerms scores = some w) :
    w = weightedSum_spec scores (fun k => (dget? SCORING_WEIGHTS k).getD 0) := by
  induction scores generalizing w with
  | nil =>
    simp [sumTerms] at h
    simp [weightedSum_spec, ← h]
  | cons p t ih =>
    obtain ⟨k, s⟩ := p
    unfold sumTerms at h
    rcases hw : dget? SCORING_WEIGHTS k with _ | wk <;> rw [hw] at h
    · simp at h
    rcases hr : sumTerms t with _ | r <;> rw [hr] at h
    · simp at h
    simp only [Option.some.injEq] at h
    subst h
    simp [weightedSum_spec, hw]
    simpa [weightedSum_spec] using ih r hr

theorem calc_final_std (a b c : ℤ) :
    calculate_final_score
        [("Size (EBIT)", a), ("Market Growth", b), ("Stable Margins", c)] =
      Except.ok (((a + b + c : ℤ) : ℚ) / 5) := by
  unfold calculate_final_score
  rw [sumTerms_std]
  simp only [round2_int_div5]

example : pyFloat? "12.5".data = some (Rat.divInt 25 2) := by decide
example : pyFloat? "1,000".data = none := by decide
example : pyFloat? "-2e3".data = some (-2000 : ℚ) := by decide
example : pyFloat? "1.5e-2".data = some (Rat.divInt 3 200) := by decide
example : pyFloat? "1.2.3".data = none := by decide
example : pyFloat? "".data = none := by decide
example : pyFloat? (cleanNum "1,000".data) = some (1000 : ℚ) := by decide
example : searchPat ebitPatL false "EBIT margin 22%" = some "22".data := by decide
example : searchPat marginPatL true "EBIT margin of 12,5%" = some "12,5".data := by decide
example : searchPat growthPatL true "growth 12 percent" = none := by decide
example : searchPat growthPatL true "growth of 9%" = some "9".data := by decide
example : convMetric (searchPat marginPatL true "EBIT margin of 12,5%") =
    Except.ok (Rat.divInt 25 2) := by decide
example : extract_financials_from_table [[[some "EBIT", some "1,0", some "2", some "3"]]] =
    Except.ok [("Revenue 2022", 0), ("Revenue 2023", 0), ("Revenue 2024", 0),
      ("EBIT 2022", 10), ("EBIT 2023", 2), ("EBIT 2024", 3)] := by decide
example : extract_financials_from_table [[[some ""]]] = Except.error "IndexError" := by decide
example : extract_key_metrics "EBIT margin 22%" [] =
    Except.ok [("EBIT", 22), ("Revenue Growth", 0), ("EBIT Margins", 22),
      ("Revenue 2022", 0), ("Revenue 2023", 0), ("Revenue 2024", 0),
      ("EBIT 2022", 0), ("EBIT 2023", 0), ("EBIT 2024", 0)] := by decide

/-- C10: the text pattern for the scalar EBIT metric also matches the
substring "EBIT" inside "EBIT margin": on a text whose only EBIT mention is
the clause "EBIT margin 22%", with no standalone EBIT figure, the extracted
EBIT metric equals the margin percentage 22.0 rather than being absent. -/
theorem C10_ebit_pattern_matches_margin :
    searchPat ebitPatL false "EBIT margin 22%" = some "22".data ∧
    extract_key_metrics "EBIT margin 22%" [] =
      Except.ok [("EBIT", 22), ("Revenue Growth", 0), ("EBIT Margins", 22),
        ("Revenue 2022", 0), ("Revenue 2023", 0), ("Revenue 2024", 0),
        ("EBIT 2022", 0), ("EBIT 2023", 0), ("EBIT 2024", 0)] := by
  constructor <;> decide

/-- C8: the extractor does not, in fact, terminate normally on every
well-formed input: a non-empty table row all of whose cells are null/empty
passes the `if row:` guard, the comprehension filters every cell away, and
`row_text[0]` raises IndexError. -/
theorem C8_extractor_raises_on_blank_cell_row :
    extract_key_metrics "EBIT 3.5" [[[some "EBIT", some "2"], [some ""]]] =
      Except.error "IndexError" ∧
    extract_financials_from_table [[[none]]] = Except.error "IndexError" := by
  constructor <;> decide

/-- C1 counterexample: on an empty document neither strategy finds any
metric, yet `extract_key_metrics` binds every metric — EBIT shown
explicitly — to the numeric value 0.0, not to a null sentinel. -/
theorem C1_counterexample :
    searchPat ebitPatL false "" = none ∧
    searchPat growthPatL true "" = none ∧
    searchPat marginPatL true "" = none ∧
    extract_key_metrics "" [] =
      Except.ok [("EBIT", 0), ("Revenue Growth", 0), ("EBIT Margins", 0),
        ("Revenue 2022", 0), ("Revenue 2023", 0), ("Revenue 2024", 0),
        ("EBIT 2022", 0), ("EBIT 2023", 0), ("EBIT 2024", 0)] ∧
    dget? [("EBIT", (0 : ℚ)), ("Revenue Growth", 0), ("EBIT Margins", 0),
        ("Revenue 2022", 0), ("Revenue 2023", 0), ("Revenue 2024", 0),
        ("EBIT 2022", 0), ("EBIT 2023", 0), ("EBIT 2024", 0)] "EBIT" = some (0 : ℚ) := by
  refine ⟨?_, ?_, ?_, ?_, ?_⟩ <;> decide

/-- C2: the Scoring Engine evaluates the Stable Margins criterion with the
spec's strict ladder v>20→5; v>15→4; v>10→3; v>5→2; else 1, so a metric
exactly equal to a band boundary falls into the lower band, and an EBIT
Margins value of exactly 20.0 scores 4, not 5. -/
theorem C2_strict_threshold_ladder (m : List (String × ℚ)) (s : List (String × ℤ))
    (e g v : ℚ)
    (hE : dget? m "EBIT" = some e) (hG : dget? m "Revenue Growth" = some g)
    (hv : dget? m "EBIT Margins" = some v) (hs : score_deal m = Except.ok s) :
    dget? s "Size (EBIT)" = some (sizeLadder_spec e) ∧
    dget? s "Market Growth" = some (growthLadder_spec g) ∧
    dget? s "Stable Margins" = some (stableLadder_spec v) ∧
    stableLadder_spec 20 = 4 ∧ stableLadder_spec 20 ≠ 5 := by
  obtain ⟨e', g', mg', hE', hG', hM', hsEq⟩ := score_deal_ok m s hs
  rw [hE] at hE'
  injection hE' with hE'
  rw [hG] at hG'
  injection hG' with hG'
  rw [hv] at hM'
  injection hM' with hM'
  subst hE'
  subst hG'
  subst hM'
  subst hsEq
  refine ⟨?_, ?_, ?_, by decide, by decide⟩ <;> simp [dget?] <;> rfl

/-- Witness for C2 at the boundary metric map with EBIT Margins = 20. -/
theorem C2_witness :
    dget? [("Size (EBIT)", (5 : ℤ)), ("Market Growth", 5), ("Stable Margins", 4)]
        "Size (EBIT)" = some (sizeLadder_spec 4) ∧
    dget? [("Size (EBIT)", (5 : ℤ)), ("Market Growth", 5), ("Stable Margins", 4)]
        "Market Growth" = some (growthLadder_spec 9) ∧
    dget? [("Size (EBIT)", (5 : ℤ)), ("Market Growth", 5), ("Stable Margins", 4)]
        "Stable Margins" = some (stableLadder_spec 20) ∧
    stableLadder_spec 20 = 4 ∧ stableLadder_spec 20 ≠ 5 :=
  C2_strict_threshold_ladder
    [("EBIT", 4), ("Revenue Growth", 9), ("EBIT Margins", 20)]
    [("Size (EBIT)", 5), ("Market Growth", 5), ("Stable Margins", 4)]
    4 9 20 (by decide) (by decide) (by decide) (by decide)

/-- C3: whenever `calculate_final_score` succeeds it returns exactly the
spec's weighted sum Σ(score_i × weight_i/100) rounded to two decimals, with
the weights drawn from `SCORING_WEIGHTS`, whose entries sum to 100. -/
theorem C3_weighted_final_score (scores : List (String × ℤ)) (r : ℚ)
    (h : calculate_final_score scores = Except.ok r) :
    (SCORING_WEIGHTS.map Prod.snd).sum = 100 ∧
    r = round2 (weightedSum_spec scores (fun k => (dget? SCORING_WEIGHTS k).getD 0)) := by
  constructor
  · norm_num [SCORING_WEIGHTS]
  · unfold calculate_final_score at h
    rcases hs : sumTerms scores with _ | w <;> rw [hs] at h
    · simp at h
    simp only [Except.ok.injEq] at h
    subst h
    rw [sumTerms_eq_weightedSum scores w hs]

/-- Witness for C3 at the score card (5, 5, 4). -/
theorem C3_witness :
    (SCORING_WEIGHTS.map Prod.snd).sum = 100 ∧
    (((5 + 5 + 4 : ℤ) : ℚ) / 5) =
      round2 (weightedSum_spec
        [("Size (EBIT)", 5), ("Market Growth", 5), ("Stable Margins", 4)]
        (fun k => (dget? SCORING_WEIGHTS k).getD 0)) :=
  C3_weighted_final_score
    [("Size (EBIT)", 5), ("Market Growth", 5), ("Stable Margins", 4)]
    (((5 + 5 + 4 : ℤ) : ℚ) / 5) (calc_final_std 5 5 4)

/-- C4 (classifier modelled from the spec, §4.4): the tier map uses
inclusive lower bounds ≥4.5 → Excellent, ≥4.0 → Attractive,
≥3.5 → Moderate, else Weak; exactly 4.0 is Attractive and 3.999 is
Moderate. -/
theorem C4_tier_inclusive_bounds (s : ℚ) :
    (4.5 ≤ s → classify_tier s = "Excellent") ∧
    (4 ≤ s → s < 4.5 → classify_tier s = "Attractive") ∧
    (3.5 ≤ s → s < 4 → classify_tier s = "Moderate") ∧
    (s < 3.5 → classify_tier s = "Weak") ∧
    classify_tier 4 = "Attractive" ∧ classify_tier (3.999 : ℚ) = "Moderate" := by
  refine ⟨?_, ?_, ?_, ?_, ?_, ?_⟩
  · intro h
    rw [classify_tier, if_pos h]
  · intro h1 h2
    rw [classify_tier, if_neg (by linarith), if_pos h1]
  · intro h1 h2
    rw [classify_tier, if_neg (by linarith), if_neg (by linarith), if_pos h1]
  · intro h
    rw [classify_tier, if_neg (by linarith), if_neg (by linarith), if_neg (by linarith)]
  · rw [classify_tier, if_neg (by norm_num), if_pos (by norm_num)]
  · rw [classify_tier, if_neg (by norm_num), if_neg (by norm_num), if_pos (by norm_num)]

/-- Witness for C4 at 5, 4, 3.7 and 1. -/
theorem C4_witness :
    classify_tier 5 = "Excellent" ∧ classify_tier 4 = "Attractive" ∧
    classify_tier (3.7 : ℚ) = "Moderate" ∧ classify_tier 1 = "Weak" :=
  ⟨(C4_tier_inclusive_bounds 5).1 (by norm_num),
   (C4_tier_inclusive_bounds 4).2.1 (by norm_num) (by norm_num),
   (C4_tier_inclusive_bounds (3.7 : ℚ)).2.2.1 (by norm_num) (by norm_num),
   (C4_tier_inclusive_bounds 1).2.2.2.1 (by norm_num)⟩

/-- C5 counterexample: on the empty document the pipeline returns a final
score of 3/5 = 0.6, which lies outside the claimed interval [1.0, 5.0] —
only three of the five weighted criteria are ever scored, so the weighted
sum cannot reach past 3.0 nor stay above 1.0. -/
theorem C5_counterexample :
    pipelineScore "" [] = Except.ok (Rat.divInt 3 5) ∧
    ¬ (1 ≤ Rat.divInt 3 5) := by
  constructor
  · have hm : extract_key_metrics "" [] =
        Except.ok [("EBIT", 0), ("Revenue Growth", 0), ("EBIT Margins", 0),
          ("Revenue 2022", 0), ("Revenue 2023", 0), ("Revenue 2024", 0),
          ("EBIT 2022", 0), ("EBIT 2023", 0), ("EBIT 2024", 0)] := by decide
    have hs : score_deal [("EBIT", (0 : ℚ)), ("Revenue Growth", 0), ("EBIT Margins", 0),
          ("Revenue 2022", 0), ("Revenue 2023", 0), ("Revenue 2024", 0),
          ("EBIT 2022", 0), ("EBIT 2023", 0), ("EBIT 2024", 0)] =
        Except.ok [("Size (EBIT)", 1), ("Market Growth", 1), ("Stable Margins", 1)] := by
      decide
    simp only [pipelineScore, hm, hs, calc_final_std]
    norm_num [Rat.divInt_eq_div]
  · decide

/-- C5 amended: the final score of the pipeline lies in [0.6, 3.0] (not
[1.0, 5.0]): each of the three scored criteria contributes between
1×0.2 and 5×0.2. -/
theorem C5_final_score_bounds (m : List (String × ℚ)) (s : List (String × ℤ)) (r : ℚ)
    (hs : score_deal m = Except.ok s) (hc : calculate_final_score s = Except.ok r) :
    Rat.divInt 3 5 ≤ r ∧ r ≤ 3 := by
  obtain ⟨e, g, mg, hE, hG, hM, hsEq⟩ := score_deal_ok m s hs
  subst hsEq
  rw [calc_final_std] at hc
  simp only [Except.ok.injEq] at hc
  subst hc
  have h1 := sizeScore_bounds e
  have h2 := growthScore_bounds g
  have h3 := marginScore_bounds mg
  have hlo : (3 : ℤ) ≤ sizeScore e + growthScore g + marginScore mg := by linarith
  have hhi : sizeScore e + growthScore g + marginScore mg ≤ 15 := by linarith
  constructor
  · rw [Rat.divInt_eq_div]
    have : ((3 : ℤ) : ℚ) ≤ ((sizeScore e + growthScore g + marginScore mg : ℤ) : ℚ) := by
      exact_mod_cast hlo
    push_cast at this ⊢
    linarith
  · have : ((sizeScore e + growthScore g + marginScore mg : ℤ) : ℚ) ≤ ((15 : ℤ) : ℚ) := by
      exact_mod_cast hhi
    push_cast at this ⊢
    linarith

/-- Witness for C5's amended bounds at the empty-document score card. -/
theorem C5_witness :
    Rat.divInt 3 5 ≤ ((1 + 1 + 1 : ℤ) : ℚ) / 5 ∧ ((1 + 1 + 1 : ℤ) : ℚ) / 5 ≤ 3 :=
  C5_final_score_bounds
    [("EBIT", 0), ("Revenue Growth", 0), ("EBIT Margins", 0)]
    [("Size (EBIT)", 1), ("Market Growth", 1), ("Stable Margins", 1)]
    (((1 + 1 + 1 : ℤ) : ℚ) / 5) (by decide) (calc_final_std 1 1 1)

theorem keys_setYear (lbl year : String) (m : List (String × ℚ)) (rt : List (List Char)) (i : ℕ)
    (h : yearKey lbl year ∈ m.map Prod.fst) :
    (setYear lbl year m rt i).map Prod.fst = m.map Prod.fst := by
  unfold setYear
  split
  · split
    · split
      · exact keys_dset_mem _ _ _ h
      · rfl
    · rfl
  · rfl

theorem keys_yearLoop (lbl : String) (m : List (String × ℚ)) (rt : List (List Char))
    (h1 : yearKey lbl "2022" ∈ m.map Prod.fst)
    (h2 : yearKey lbl "2023" ∈ m.map Prod.fst)
    (h3 : yearKey lbl "2024" ∈ m.map Prod.fst) :
    (yearLoop lbl m rt).map Prod.fst = m.map Prod.fst := by
  have k1 := keys_setYear lbl "2022" m rt 0 h1
  have k2 := keys_setYear lbl "2023" (setYear lbl "2022" m rt 0) rt 1 (by rw [k1]; exact h2)
  have k3 := keys_setYear lbl "2024" (setYear lbl "2023" (setYear lbl "2022" m rt 0) rt 1) rt 2
    (by rw [k2, k1]; exact h3)
  unfold yearLoop
  rw [k3, k2, k1]

theorem keys_revApply (m : List (String × ℚ)) (first : List Char) (rt : List (List Char))
    (hk : m.map Prod.fst = fd0.map Prod.fst) :
    (revApply m first rt).map Prod.fst = fd0.map Prod.fst := by
  unfold revApply
  split
  · rw [keys_yearLoop _ _ _ (by rw [hk]; decide) (by rw [hk]; decide) (by rw [hk]; decide)]
    exact hk
  · exact hk

theorem keys_rowApply (m : List (String × ℚ)) (first : List Char) (rt : List (List Char))
    (hk : m.map Prod.fst = fd0.map Prod.fst) :
    (rowApply m first rt).map Prod.fst = fd0.map Prod.fst := by
  have hrev := keys_revApply m first rt hk
  unfold rowApply
  split
  · rw [keys_yearLoop _ _ _ (by rw [hrev]; decide) (by rw [hrev]; decide) (by rw [hrev]; decide)]
    exact hrev
  · exact hrev

theorem keys_procRow (m : List (String × ℚ)) (row : List (Option String))
    (m' : List (String × ℚ)) (hk : m.map Prod.fst = fd0.map Prod.fst)
    (h : procRow m row = Except.ok m') : m'.map Prod.fst = fd0.map Prod.fst := by
  unfold procRow at h
  split at h
  · injection h with h
    subst h
    exact hk
  · split at h
    · simp at h
    · injection h with h
      subst h
      exact keys_rowApply _ _ _ hk

theorem keys_procRows (rows : List (List (Option String))) :
    ∀ m m' : List (String × ℚ), m.map Prod.fst = fd0.map Prod.fst →
      procRows m rows = Except.ok m' → m'.map Prod.fst = fd0.map Prod.fst := by
  induction rows with
  | nil =>
    intro m m' hk h
    unfold procRows at h
    injection h with h
    subst h
    exact hk
  | cons row rest ih =>
    intro m m' hk h
    unfold procRows at h
    rcases hr : procRow m row with e | mi <;> rw [hr] at h
    · simp at h
    · exact ih mi m' (keys_procRow m row mi hk hr) h

theorem keys_procTables (tables : List (List (List (Option String)))) :
    ∀ m m' : List (String × ℚ), m.map Prod.fst = fd0.map Prod.fst →
      procTables m tables = Except.ok m' → m'.map Prod.fst = fd0.map Prod.fst := by
  induction tables with
  | nil =>
    intro m m' hk h
    unfold procTables at h
    injection h with h
    subst h
    exact hk
  | cons table rest ih =>
    intro m m' hk h
    unfold procTables at h
    rcases hr : procRows m table with e | mi <;> rw [hr] at h
    · simp at h
    · exact ih mi m' (keys_procRows table m mi hk hr) h

theorem keys_extract_financials (tables : List (List (List (Option String))))
    (fin : List (String × ℚ)) (h : extract_financials_from_table tables = Except.ok fin) :
    fin.map Prod.fst = fd0.map Prod.fst :=
  keys_procTables tables fd0 fin rfl h

theorem dget?_setYear_ne (lbl year : String) (m : List (String × ℚ)) (rt : List (List Char))
    (i : ℕ) (k : String) (h : k ≠ yearKey lbl year) :
    dget? (setYear lbl year m rt i) k = dget? m k := by
  unfold setYear
  split
  · split
    · split
      · exact dget?_dset_ne _ _ (Ne.symm h)
      · rfl
    · rfl
  · rfl

theorem dget?_setYear_hit (lbl year : String) (m : List (String × ℚ)) (rt : List (List Char))
    (i : ℕ) (c : List Char) (v : ℚ) (hlt : i + 1 < rt.length)
    (hg : rt.get? (i + 1) = some c) (hp : pyFloat? (cleanNum c) = some v) :
    dget? (setYear lbl year m rt i) (yearKey lbl year) = some v := by
  unfold setYear
  simp only [hlt, if_true, hg, hp]
  exact dget?_dset_self m (yearKey lbl year) v

theorem dget?_setYear_miss (lbl year : String) (m : List (String × ℚ)) (rt : List (List Char))
    (i : ℕ) (c : List Char) (hlt : i + 1 < rt.length)
    (hg : rt.get? (i + 1) = some c) (hp : pyFloat? (cleanNum c) = none) :
    setYear lbl year m rt i = m := by
  unfold setYear
  simp only [hlt, if_true, hg, hp]

theorem setYear_oob (lbl year : String) (m : List (String × ℚ)) (rt : List (List Char))
    (i : ℕ) (h : ¬ (i + 1 < rt.length)) : setYear lbl year m rt i = m := by
  unfold setYear
  rw [if_neg h]

theorem rowText_nil : rowText [] = [] := rfl

theorem rowText_cons_none (r : List (Option String)) : rowText (none :: r) = rowText r := by
  simp [rowText]

theorem rowText_cons_some (s : String) (r : List (Option String)) :
    rowText (some s :: r) =
      if s = "" then rowText r else lowerL (stripL s.data) :: rowText r := by
  by_cases h : s = "" <;> simp [rowText, h]

theorem procRow_label (m : List (String × ℚ)) (row : List (Option String)) (first : List Char)
    (rest : List (List Char)) (h0 : row ≠ []) (hrt : rowText row = first :: rest) :
    procRow m row = Except.ok (rowApply m first (first :: rest)) := by
  unfold procRow
  rw [if_neg h0, hrt]

theorem rowApply_ebit_only (m : List (String × ℚ)) (first : List Char) (rt : List (List Char))
    (he : containsSubstr first ebitL = true) (hr : containsSubstr first revL = false) :
    rowApply m first rt = yearLoop "EBIT" m rt := by
  unfold rowApply revApply
  rw [hr, he]
  simp

/-- C9: whenever `extract_key_metrics` returns a metric map, that map has
exactly the nine keys EBIT, Revenue Growth, EBIT Margins, Revenue 2022/23/24
and EBIT 2022/23/24, in insertion order, each bound to a rational (the
model of a Python float) — so every lookup done by `score_deal` and the
financial-summary table succeeds. -/
theorem C9_nine_metric_keys (text : String) (tables : List (List (List (Option String))))
    (fd : List (String × ℚ)) (h : extract_key_metrics text tables = Except.ok fd) :
    fd.map Prod.fst = ["EBIT", "Revenue Growth", "EBIT Margins",
      "Revenue 2022", "Revenue 2023", "Revenue 2024",
      "EBIT 2022", "EBIT 2023", "EBIT 2024"] := by
  unfold extract_key_metrics at h
  rcases hE : convMetric (searchPat ebitPatL false text) with e | vE <;> rw [hE] at h
  · simp at h
  rcases hG : convMetric (searchPat growthPatL true text) with e | vG <;> rw [hG] at h
  · simp at h
  rcases hM : convMetric (searchPat marginPatL true text) with e | vM <;> rw [hM] at h
  · simp at h
  rcases hT : extract_financials_from_table tables with e | fin <;> rw [hT] at h
  · simp at h
  simp only [Except.ok.injEq] at h
  subst h
  have hkeys := keys_extract_financials tables fin hT
  rcases fin with _ | ⟨⟨k1, w1⟩, fin⟩
  · simp [fd0] at hkeys
  rcases fin with _ | ⟨⟨k2, w2⟩, fin⟩
  · simp [fd0] at hkeys
  rcases fin with _ | ⟨⟨k3, w3⟩, fin⟩
  · simp [fd0] at hkeys
  rcases fin with _ | ⟨⟨k4, w4⟩, fin⟩
  · simp [fd0] at hkeys
  rcases fin with _ | ⟨⟨k5, w5⟩, fin⟩
  · simp [fd0] at hkeys
  rcases fin with _ | ⟨⟨k6, w6⟩, fin⟩
  · simp [fd0] at hkeys
  rcases fin with _ | ⟨⟨k7, w7⟩, fin⟩
  · simp [fd0] at hkeys
    obtain ⟨e1, e2, e3, e4, e5, e6⟩ := hkeys
    subst e1; subst e2; subst e3; subst e4; subst e5; subst e6
    simp [dictUpdate, dset]
  · simp [fd0] at hkeys

/-- Witness for C9 on the empty document. -/
theorem C9_witness :
    ([("EBIT", (0 : ℚ)), ("Revenue Growth", 0), ("EBIT Margins", 0),
      ("Revenue 2022", 0), ("Revenue 2023", 0), ("Revenue 2024", 0),
      ("EBIT 2022", 0), ("EBIT 2023", 0), ("EBIT 2024", 0)]).map Prod.fst =
      ["EBIT", "Revenue Growth", "EBIT Margins",
       "Revenue 2022", "Revenue 2023", "Revenue 2024",
       "EBIT 2022", "EBIT 2023", "EBIT 2024"] :=
  C9_nine_metric_keys "" []
    [("EBIT", 0), ("Revenue Growth", 0), ("EBIT Margins", 0),
     ("Revenue 2022", 0), ("Revenue 2023", 0), ("Revenue 2024", 0),
     ("EBIT 2022", 0), ("EBIT 2023", 0), ("EBIT 2024", 0)] (by decide)

/-- C1 amended: a scalar metric the text-pattern strategy does not find is
bound to the numeric default 0.0 (not a null sentinel) in the returned
metric map — shown for EBIT — and on a document with no tables the
year-series metrics likewise stay at their numeric default 0.0. -/
theorem C1_amended_zero_default (text : String) (tables : List (List (List (Option String))))
    (fd : List (String × ℚ))
    (h : extract_key_metrics text tables = Except.ok fd)
    (hE : searchPat ebitPatL false text = none) :
    dget? fd "EBIT" = some 0 ∧
    (tables = [] → dget? fd "EBIT 2023" = some 0) := by
  unfold extract_key_metrics at h
  have hE0 : convMetric (searchPat ebitPatL false text) = Except.ok 0 := by
    rw [hE]
    rfl
  rw [hE0] at h
  rcases hG : convMetric (searchPat growthPatL true text) with e | vG <;> rw [hG] at h
  · simp at h
  rcases hM : convMetric (searchPat marginPatL true text) with e | vM <;> rw [hM] at h
  · simp at h
  rcases hT : extract_financials_from_table tables with e | fin <;> rw [hT] at h
  · simp at h
  simp only [Except.ok.injEq] at h
  subst h
  have hkeys := keys_extract_financials tables fin hT
  constructor
  · rw [dictUpdate, dget?_foldl_dset_not_mem fin _ "EBIT" (by rw [hkeys]; decide)]
    simp [dget?]
  · rintro rfl
    have hfd : extract_financials_from_table ([] : List (List (List (Option String)))) =
        Except.ok fd0 := rfl
    rw [hfd] at hT
    injection hT with hT
    subst hT
    simp [dictUpdate, fd0, dset, dget?]

/-- Witness for C1's amended zero-default behaviour on the empty document. -/
theorem C1_witness :
    dget? [("EBIT", (0 : ℚ)), ("Revenue Growth", 0), ("EBIT Margins", 0),
        ("Revenue 2022", 0), ("Revenue 2023", 0), ("Revenue 2024", 0),
        ("EBIT 2022", 0), ("EBIT 2023", 0), ("EBIT 2024", 0)] "EBIT" = some 0 ∧
    (([] : List (List (List (Option String)))) = [] →
      dget? [("EBIT", (0 : ℚ)), ("Revenue Growth", 0), ("EBIT Margins", 0),
        ("Revenue 2022", 0), ("Revenue 2023", 0), ("Revenue 2024", 0),
        ("EBIT 2022", 0), ("EBIT 2023", 0), ("EBIT 2024", 0)] "EBIT 2023" = some 0) :=
  C1_amended_zero_default "" []
    [("EBIT", 0), ("Revenue Growth", 0), ("EBIT Margins", 0),
     ("Revenue 2022", 0), ("Revenue 2023", 0), ("Revenue 2024", 0),
     ("EBIT 2022", 0), ("EBIT 2023", 0), ("EBIT 2024", 0)] (by decide) (by decide)

theorem dget?_setYear_eq2 (lbl year : String) (m : List (String × ℚ)) (rt : List (List Char))
    (i : ℕ) :
    dget? (setYear lbl year m rt i) (yearKey lbl year) =
      match (rt.get? (i + 1)).bind (fun c => pyFloat? (cleanNum c)) with
      | some v => some v
      | none => dget? m (yearKey lbl year) := by
  rcases hg : rt.get? (i + 1) with _ | c
  · have hoob : ¬ (i + 1 < rt.length) := by
      have := List.get?_eq_none.mp hg
      omega
    rw [setYear_oob _ _ _ _ _ hoob]
    simp
  · have hlt : i + 1 < rt.length := by
      by_contra hn
      rw [List.get?_eq_none.mpr (by omega)] at hg
      cases hg
    rcases hp : pyFloat? (cleanNum c) with _ | v
    · rw [dget?_setYear_miss _ _ _ _ _ _ hlt hg hp]
      simp [hp]
    · rw [dget?_setYear_hit _ _ _ _ _ _ _ hlt hg hp]
      simp [hp]

theorem dget?_yearLoop_ebit_2022 (m : List (String × ℚ)) (rt : List (List Char)) :
    dget? (yearLoop "EBIT" m rt) "EBIT 2022" =
      match (rt.get? 1).bind (fun c => pyFloat? (cleanNum c)) with
      | some v => some v
      | none => dget? m "EBIT 2022" := by
  have hkey : ("EBIT 2022" : String) = yearKey "EBIT" "2022" := rfl
  rw [hkey]
  unfold yearLoop
  rw [dget?_setYear_ne _ _ _ _ _ _ (by decide), dget?_setYear_ne _ _ _ _ _ _ (by decide)]
  exact dget?_setYear_eq2 "EBIT" "2022" m rt 0

theorem dget?_yearLoop_ebit_2023 (m : List (String × ℚ)) (rt : List (List Char)) :
    dget? (yearLoop "EBIT" m rt) "EBIT 2023" =
      match (rt.get? 2).bind (fun c => pyFloat? (cleanNum c)) with
      | some v => some v
      | none => dget? m "EBIT 2023" := by
  have hkey : ("EBIT 2023" : String) = yearKey "EBIT" "2023" := rfl
  rw [hkey]
  unfold yearLoop
  rw [dget?_setYear_ne _ _ _ _ _ _ (by decide)]
  rw [dget?_setYear_eq2 "EBIT" "2023" (setYear "EBIT" "2022" m rt 0) rt 1]
  rw [dget?_setYear_ne _ _ _ _ _ _ (by decide)]

theorem dget?_yearLoop_ebit_2024 (m : List (String × ℚ)) (rt : List (List Char)) :
    dget? (yearLoop "EBIT" m rt) "EBIT 2024" =
      match (rt.get? 3).bind (fun c => pyFloat? (cleanNum c)) with
      | some v => some v
      | none => dget? m "EBIT 2024" := by
  have hkey : ("EBIT 2024" : String) = yearKey "EBIT" "2024" := rfl
  rw [hkey]
  unfold yearLoop
  rw [dget?_setYear_eq2 "EBIT" "2024" _ rt 2]
  rw [dget?_setYear_ne _ _ _ _ _ _ (by decide), dget?_setYear_ne _ _ _ _ _ _ (by decide)]

/-- C7 counterexample: in the row ["EBIT", null, "100", "200"] the claim
maps row position 1 (null, unparseable → 2022 unchanged), position 2
("100" → 2023) and position 3 ("200" → 2024); but the code drops the null
cell before indexing, so "100" lands on 2022 and "200" on 2023 while 2024
keeps its default. -/
theorem C7_counterexample :
    extract_financials_from_table [[[some "EBIT", none, some "100", some "200"]]] =
      Except.ok [("Revenue 2022", 0), ("Revenue 2023", 0), ("Revenue 2024", 0),
        ("EBIT 2022", 100), ("EBIT 2023", 200), ("EBIT 2024", 0)] := by
  decide

/-- C7 amended: for a qualifying "ebit" row, cell `i+1` of the FILTERED row
(null and empty cells removed, shifting later cells leftward) is parsed
after stripping commas and spaces and mapped to year {2022,2023,2024}[i];
a filtered cell that fails to parse, or a missing position, leaves that
year's value at its current default. -/
theorem C7_filtered_positions (row : List (Option String)) (first : List Char)
    (rest : List (List Char)) (h0 : row ≠ []) (hrt : rowText row = first :: rest)
    (he : containsSubstr first ebitL = true) (hr : containsSubstr first revL = false) :
    ∃ fd, extract_financials_from_table [[row]] = Except.ok fd ∧
      dget? fd "EBIT 2022" =
        some (((rest.get? 0).bind (fun c => pyFloat? (cleanNum c))).getD 0) ∧
      dget? fd "EBIT 2023" =
        some (((rest.get? 1).bind (fun c => pyFloat? (cleanNum c))).getD 0) ∧
      dget? fd "EBIT 2024" =
        some (((rest.get? 2).bind (fun c => pyFloat? (cleanNum c))).getD 0) := by
  have hproc : procRow fd0 row = Except.ok (yearLoop "EBIT" fd0 (first :: rest)) := by
    rw [procRow_label fd0 row first rest h0 hrt, rowApply_ebit_only fd0 first _ he hr]
  refine ⟨yearLoop "EBIT" fd0 (first :: rest), ?_, ?_, ?_, ?_⟩
  · simp only [extract_financials_from_table, procTables, procRows, hproc]
  · rw [dget?_yearLoop_ebit_2022]
    rcases hb : (rest.get? 0).bind (fun c => pyFloat? (cleanNum c)) with _ | v <;>
      rw [show ((first :: rest).get? 1) = rest.get? 0 from rfl, hb] <;> rfl
  · rw [dget?_yearLoop_ebit_2023]
    rcases hb : (rest.get? 1).bind (fun c => pyFloat? (cleanNum c)) with _ | v <;>
      rw [show ((first :: rest).get? 2) = rest.get? 1 from rfl, hb] <;> rfl
  · rw [dget?_yearLoop_ebit_2024]
    rcases hb : (rest.get? 2).bind (fun c => pyFloat? (cleanNum c)) with _ | v <;>
      rw [show ((first :: rest).get? 3) = rest.get? 2 from rfl, hb] <;> rfl

/-- Witness for C7's amended position mapping, with an unparseable middle
cell ("x") that leaves 2023 at its default. -/
theorem C7_witness :
    ∃ fd, extract_financials_from_table [[[some "EBIT", some "1", some "x", some "3"]]] =
        Except.ok fd ∧
      dget? fd "EBIT 2022" =
        some (((["1".data, "x".data, "3".data].get? 0).bind
          (fun c => pyFloat? (cleanNum c))).getD 0) ∧
      dget? fd "EBIT 2023" =
        some (((["1".data, "x".data, "3".data].get? 1).bind
          (fun c => pyFloat? (cleanNum c))).getD 0) ∧
      dget? fd "EBIT 2024" =
        some (((["1".data, "x".data, "3".data].get? 2).bind
          (fun c => pyFloat? (cleanNum c))).getD 0) :=
  C7_filtered_positions [some "EBIT", some "1", some "x", some "3"] "ebit".data
    ["1".data, "x".data, "3".data] (by decide) (by decide) (by decide) (by decide)

/-- C6: when two rows qualify for the same "ebit" label and both carry a
parseable value for year 2023 (the cell at filtered position 2), the value
retained in the metric map is the one from the later row in scan order. -/
theorem C6_last_qualifying_row_wins (b1 b2 : String) (v1 v2 : ℚ)
    (hb1 : b1 ≠ "") (hb2 : b2 ≠ "")
    (hp1 : pyFloat? (cleanNum (lowerL (stripL b1.data))) = some v1)
    (hp2 : pyFloat? (cleanNum (lowerL (stripL b2.data))) = some v2)
    (hne : v1 ≠ v2) :
    ∃ fd, extract_financials_from_table
        [[[some "EBIT", some "1", some b1, some "3"],
          [some "EBIT", some "4", some b2, some "6"]]] = Except.ok fd ∧
      dget? fd "EBIT 2023" = some v2 := by
  have hrt1 : rowText [some "EBIT", some "1", some b1, some "3"] =
      "ebit".data :: "1".data :: lowerL (stripL b1.data) :: "3".data :: [] := by
    rw [rowText_cons_some, if_neg (by decide), rowText_cons_some, if_neg (by decide),
        rowText_cons_some, if_neg hb1, rowText_cons_some, if_neg (by decide), rowText_nil]
    simp only [List.cons.injEq, and_true]
    refine ⟨by decide, by decide, trivial, by decide⟩
  have hrt2 : rowText [some "EBIT", some "4", some b2, some "6"] =
      "ebit".data :: "4".data :: lowerL (stripL b2.data) :: "6".data :: [] := by
    rw [rowText_cons_some, if_neg (by decide), rowText_cons_some, if_neg (by decide),
        rowText_cons_some, if_neg hb2, rowText_cons_some, if_neg (by decide), rowText_nil]
    simp only [List.cons.injEq, and_true]
    refine ⟨by decide, by decide, trivial, by decide⟩
  have hproc1 : procRow fd0 [some "EBIT", some "1", some b1, some "3"] =
      Except.ok (yearLoop "EBIT" fd0
        ("ebit".data :: "1".data :: lowerL (stripL b1.data) :: "3".data :: [])) := by
    rw [procRow_label _ _ _ _ (by simp) hrt1, rowApply_ebit_only _ _ _ (by decide) (by decide)]
  have hproc2 : ∀ m : List (String × ℚ), procRow m [some "EBIT", some "4", some b2, some "6"] =
      Except.ok (yearLoop "EBIT" m
        ("ebit".data :: "4".data :: lowerL (stripL b2.data) :: "6".data :: [])) := by
    intro m
    rw [procRow_label _ _ _ _ (by simp) hrt2, rowApply_ebit_only _ _ _ (by decide) (by decide)]
  refine ⟨yearLoop "EBIT"
    (yearLoop "EBIT" fd0 ("ebit".data :: "1".data :: lowerL (stripL b1.data) :: "3".data :: []))
    ("ebit".data :: "4".data :: lowerL (stripL b2.data) :: "6".data :: []), ?_, ?_⟩
  · simp only [extract_financials_from_table, procTables, procRows, hproc1, hproc2]
  · rw [dget?_yearLoop_ebit_2023]
    rw [show (("ebit".data :: "4".data :: lowerL (stripL b2.data) :: "6".data :: []) :
        List (List Char)).get? 2 = some (lowerL (stripL b2.data)) from rfl]
    rw [show (some (lowerL (stripL b2.data))).bind (fun c => pyFloat? (cleanNum c)) =
        pyFloat? (cleanNum (lowerL (stripL b2.data))) from rfl]
    rw [hp2]

/-- Witness for C6 with the two 2023 cells "20" and "30". -/
theorem C6_witness :
    ∃ fd, extract_financials_from_table
        [[[some "EBIT", some "1", some "20", some "3"],
          [some "EBIT", some "4", some "30", some "6"]]] = Except.ok fd ∧
      dget? fd "EBIT 2023" = some 30 :=
  C6_last_qualifying_row_wins "20" "30" 20 30 (by decide) (by decide) (by decide) (by decide)
    (by decide)
